import Mathlib

/-!
Verification of the otter budgeting service's domain layer
(`src/backend/crates/domain`), shallowly embedded in Lean.

Rust strings are modelled as `List Char`; Rust `i64`/`i32`/`u8` values as
`Int`/`Nat` with explicit range checks where the source performs them.
Timestamps (`created_at`/`updated_at`) are omitted from entity models: no
verified property mentions them. Repository traits are modelled either as
records of (possibly stateful) functions or as an in-memory store mirroring
the SQLite implementations in `src/backend/crates/db`.
-/

namespace Otter

/-! ## Character-level helpers for Rust string semantics -/

/-- Rust `char::is_alphanumeric` (Unicode `Alphabetic` or numeric category).
Modelled exactly for code points below `0x100` (ASCII plus Latin-1, per the
Unicode character database); every character appearing in this development is
in that range, and code points at or above `0x100` are approximated as
`false`. -/
def rustCharIsAlphanumeric (c : Char) : Bool :=
  let n := c.toNat
  if n < 0x80 then c.isDigit || c.isUpper || c.isLower
  else if n < 0x100 then
    n == 0xAA || n == 0xB2 || n == 0xB3 || n == 0xB5 || n == 0xB9 ||
    n == 0xBA || n == 0xBC || n == 0xBD || n == 0xBE ||
    (0xC0 ≤ n && n ≤ 0xD6) || (0xD8 ≤ n && n ≤ 0xF6) || 0xF8 ≤ n
  else false

/-- Rust `char::is_whitespace` (Unicode `White_Space`). Modelled exactly for
code points below `0x100`; higher white-space code points are approximated as
`false`. -/
def rustCharIsWhitespace (c : Char) : Bool :=
  let n := c.toNat
  (0x09 ≤ n && n ≤ 0x0D) || n == 0x20 || n == 0x85 || n == 0xA0

/-- Rust `str::trim`: strip leading and trailing whitespace. -/
def rustTrim (s : List Char) : List Char :=
  ((s.dropWhile rustCharIsWhitespace).reverse.dropWhile rustCharIsWhitespace).reverse

/-- Rust `str::len`: the UTF-8 byte length of a string. -/
def utf8Len (s : List Char) : Nat :=
  (s.map Char.utf8Size).sum

/-- Rust `str::split(sep)` collected into a `Vec`: `""` gives `[""]`,
separators at the ends give empty segments. -/
def splitOn (sep : Char) : List Char → List (List Char)
  | [] => [[]]
  | c :: cs =>
    let r := splitOn sep cs
    if c = sep then [] :: r
    else
      match r with
      | [] => [[c]]
      | h :: t => (c :: h) :: t

/-- The numeric value of a non-empty, all-ASCII-digit character list;
`none` otherwise. -/
def digitsToNat (ds : List Char) : Option Nat :=
  if ds.isEmpty then none
  else if ds.all Char.isDigit then
    some (ds.foldl (fun acc c => acc * 10 + (c.toNat - 48)) 0)
  else none

/-- Rust `str::parse::<u8>`: an optional leading `+` sign (a `-` sign is
rejected for unsigned types), then one or more digits, value at most 255. -/
def parseU8 (s : List Char) : Option Nat :=
  let body :=
    match s with
    | '+' :: rest => digitsToNat rest
    | '-' :: _ => none
    | _ => digitsToNat s
  match body with
  | some n => if n ≤ 255 then some n else none
  | none => none

/-- Rust `str::parse::<i32>`: an optional leading `+` or `-` sign, then one or
more digits, value within the `i32` range. -/
def parseI32 (s : List Char) : Option Int :=
  match s with
  | '+' :: rest =>
    (digitsToNat rest).bind fun n =>
      if (n : Int) ≤ 2147483647 then some (n : Int) else none
  | '-' :: rest =>
    (digitsToNat rest).bind fun n =>
      if (n : Int) ≤ 2147483648 then some (-(n : Int)) else none
  | _ =>
    (digitsToNat s).bind fun n =>
      if (n : Int) ≤ 2147483647 then some (n : Int) else none

/-- `true` iff an `Except` value is `ok` (Rust `Result::is_ok`). -/
def exceptOk : Except ε α → Bool
  | .ok _ => true
  | .error _ => false

deriving instance DecidableEq for Except

/-! ## Value types (`domain/src/types`) -/

/-- `DomainError` (`domain/src/errors/mod.rs`). -/
inductive DomainError where
  | InvalidBudgetMonth (reason : String)
  | InvalidDueDay (value : Nat)
  | InvalidCategoryName (reason : String)
  | InvalidTransactionDate (reason : String)
deriving DecidableEq, Repr

/-- `Money` (`types/money.rs`): a newtype over `i64` minor units. -/
structure Money where
  value : Int
deriving DecidableEq, Repr

def Money.new (v : Int) : Money := ⟨v⟩

def Money.add (a b : Money) : Money := ⟨a.value + b.value⟩

def Money.sub (a b : Money) : Money := ⟨a.value - b.value⟩

instance : Add Money := ⟨Money.add⟩

instance : Sub Money := ⟨Money.sub⟩

/-- `BudgetMonth` (`types/budget_month.rs`): a validated `(year, month)`
pair; `year` is an `i32`, `month` a `u8` in the source. -/
structure BudgetMonth where
  year : Int
  month : Nat
deriving DecidableEq, Repr

/-- `BudgetMonth::new`: year in `[2000, 2100]`, month in `[1, 12]`. -/
def BudgetMonth.new (year : Int) (month : Nat) : Except DomainError BudgetMonth :=
  if ¬(2000 ≤ year ∧ year ≤ 2100) then
    .error (.InvalidBudgetMonth
      ("year must be between 2000 and 2100, got " ++ toString year))
  else if ¬(1 ≤ month ∧ month ≤ 12) then
    .error (.InvalidBudgetMonth
      ("month must be between 1 and 12, got " ++ toString month))
  else
    .ok ⟨year, month⟩

/-- Decimal digits of `n`, left-padded with zeros to `width` (Rust
`format!` with a `0N` width spec on an unsigned value). -/
def natPadded (width n : Nat) : List Char :=
  let ds := (toString n).toList
  List.replicate (width - ds.length) '0' ++ ds

/-- Rust zero-padded formatting of a signed integer: the sign counts
towards the width. -/
def intPadded (width : Nat) (n : Int) : List Char :=
  if n < 0 then '-' :: natPadded (width - 1) n.natAbs
  else natPadded width n.toNat

/-- `impl Display for BudgetMonth`: the zero-padded `YYYY-MM` form
(format string `{:04}-{:02}` in the source, braces elided here). -/
def BudgetMonth.render (bm : BudgetMonth) : List Char :=
  intPadded 4 bm.year ++ '-' :: natPadded 2 bm.month

/-- `impl FromStr for BudgetMonth`: split on `-`, require exactly two
segments, parse them as `i32` and `u8`, then validate via `new`. -/
def BudgetMonth.fromChars (s : List Char) : Except DomainError BudgetMonth :=
  match splitOn '-' s with
  | [ys, ms] =>
    match parseI32 ys with
    | none =>
      .error (.InvalidBudgetMonth ("invalid year in \x27" ++ String.mk s ++ "\x27"))
    | some year =>
      match parseU8 ms with
      | none =>
        .error (.InvalidBudgetMonth ("invalid month in \x27" ++ String.mk s ++ "\x27"))
      | some month => BudgetMonth.new year month
  | _ =>
    .error (.InvalidBudgetMonth
      ("expected YYYY-MM format, got \x27" ++ String.mk s ++ "\x27"))

/-- `DueDay` (`types/due_day.rs`): an integer in `[1, 31]`. -/
structure DueDay where
  value : Nat
deriving DecidableEq, Repr

def DueDay.new (value : Nat) : Except DomainError DueDay :=
  if ¬(1 ≤ value ∧ value ≤ 31) then .error (.InvalidDueDay value)
  else .ok ⟨value⟩

/-- `TransactionDate` (`types/transaction_date.rs`). No verified property
inspects the date, so it is carried as an opaque validated payload. -/
structure TransactionDate where
  raw : List Char
deriving DecidableEq, Repr

/-- A character allowed inside a `CategoryName` segment
(`c.is_alphanumeric() || c == '-' || c == '_'` in the source). -/
def categoryCharOk (c : Char) : Bool :=
  rustCharIsAlphanumeric c || c == '-' || c == '_'

/-- `CategoryName` (`types/category_name.rs`). -/
structure CategoryName where
  value : List Char
deriving DecidableEq, Repr

/-- Rust `str::contains("//")`: two consecutive slashes occur somewhere. -/
def containsDoubleSlash : List Char → Bool
  | [] => false
  | [_] => false
  | a :: b :: rest => (a == '/' && b == '/') || containsDoubleSlash (b :: rest)

/-- The `for segment in &segments` loop of `CategoryName::new`: the error
for the first offending segment, if any. -/
def firstSegmentError : List (List Char) → Option DomainError
  | [] => none
  | seg :: rest =>
    if seg.isEmpty then
      some (.InvalidCategoryName "category name must not contain empty segments")
    else if ¬ seg.all categoryCharOk then
      some (.InvalidCategoryName
        ("segment \x27" ++ String.mk seg ++
         "\x27 contains invalid characters; only alphanumeric, hyphens, and underscores are allowed"))
    else firstSegmentError rest

/-- `CategoryName::new`: non-empty, no leading/trailing `/`, no `//`, and
every `/`-separated segment non-empty with only alphanumeric, `-`, `_`
characters. -/
def CategoryName.new (value : List Char) : Except DomainError CategoryName :=
  if value.isEmpty then
    .error (.InvalidCategoryName "category name must not be empty")
  else if value.head? == some '/' then
    .error (.InvalidCategoryName "category name must not start with \x27/\x27")
  else if value.getLast? == some '/' then
    .error (.InvalidCategoryName "category name must not end with \x27/\x27")
  else if containsDoubleSlash value then
    .error (.InvalidCategoryName
      "category name must not contain empty segments (double slashes)")
  else
    match firstSegmentError (splitOn '/' value) with
    | some e => .error e
    | none => .ok ⟨value⟩

/-! ## Service-level errors (`domain/src/errors/mod.rs`) with their
`thiserror` display strings, used when one service wraps another's error. -/

/-- `MonthError`. -/
inductive MonthError where
  | AlreadyExists (month : String)
  | InvalidFormat (value : String)
  | NotFound
  | Repository (msg : String)
deriving DecidableEq, Repr

/-- `EntryError`. -/
inductive EntryError where
  | CategoryAlreadyInMonth (category_id : String) (month : String)
  | NotFound
  | HasTransactions (transaction_count : Int)
  | InvalidDueDay (value : Nat)
  | CategoryNotFound
  | MonthNotFound
  | Repository (msg : String)
deriving DecidableEq, Repr

/-- `TransactionError`. -/
inductive TransactionError where
  | InvalidAmount (value : Int)
  | NotFound
  | EntryNotFound
  | InvalidDate (value : String)
  | TitleTooLong (length : Nat) (max : Nat)
  | Repository (msg : String)
deriving DecidableEq, Repr

/-- The `Display` form of a `DomainError` (its `#[error(...)]` attribute). -/
def DomainError.display : DomainError → String
  | .InvalidBudgetMonth reason => "Invalid budget month: " ++ reason
  | .InvalidDueDay value => "Invalid due day: " ++ toString value
  | .InvalidCategoryName reason => "Invalid category name: " ++ reason
  | .InvalidTransactionDate reason => "Invalid transaction date: " ++ reason

/-- The `Display` form of an `EntryError`. -/
def EntryError.display : EntryError → String
  | .CategoryAlreadyInMonth _ _ => "Category already in month"
  | .NotFound => "Entry not found"
  | .HasTransactions _ => "Entry has transactions"
  | .InvalidDueDay value => "Invalid due day: " ++ toString value
  | .CategoryNotFound => "Category not found"
  | .MonthNotFound => "Month not found"
  | .Repository msg => "Repository error: " ++ msg

/-- The `Display` form of a `TransactionError`. -/
def TransactionError.display : TransactionError → String
  | .InvalidAmount value => "Invalid amount: " ++ toString value
  | .NotFound => "Transaction not found"
  | .EntryNotFound => "Entry not found"
  | .InvalidDate value => "Invalid date: " ++ value
  | .TitleTooLong length max =>
    "Title too long: " ++ toString length ++ " characters (max " ++ toString max ++ ")"
  | .Repository msg => "Repository error: " ++ msg

/-! ## Entities (`domain/src/entities`), timestamps omitted. Identifiers
(ULIDs in the source) are modelled as `Nat`. -/

/-- `Month`. -/
structure Month where
  id : Nat
  month : BudgetMonth
deriving DecidableEq, Repr

/-- `NewMonth`. -/
structure NewMonth where
  month : BudgetMonth
deriving DecidableEq, Repr

/-- `CategorySummary`: minimal category info embedded in entries/summaries. -/
structure CategorySummary where
  id : Nat
  name : CategoryName
deriving DecidableEq, Repr

/-- `BudgetEntry`. -/
structure BudgetEntry where
  id : Nat
  month_id : Nat
  category_id : Nat
  budgeted : Money
  due_day : Option DueDay
deriving DecidableEq, Repr

/-- `BudgetEntryWithCategory`. -/
structure BudgetEntryWithCategory where
  id : Nat
  category : CategorySummary
  budgeted : Money
  due_day : Option DueDay
deriving DecidableEq, Repr

/-- `NewBudgetEntry`. -/
structure NewBudgetEntry where
  month_id : Nat
  category_id : Nat
  budgeted : Money
  due_day : Option DueDay
deriving DecidableEq, Repr

/-- `Transaction`. -/
structure Transaction where
  id : Nat
  entry_id : Nat
  amount : Money
  date : TransactionDate
  title : Option (List Char)
deriving DecidableEq, Repr

/-- `NewTransaction`. -/
structure NewTransaction where
  entry_id : Nat
  amount : Money
  date : TransactionDate
  title : Option (List Char)
deriving DecidableEq, Repr

/-- `MAX_TITLE_LENGTH` (`entities/transaction.rs`). -/
def MAX_TITLE_LENGTH : Nat := 50

/-! ## SummaryService (`services/summary_service.rs`) -/

/-- `BudgetStatus`: the four-state per-category budget status. -/
inductive BudgetStatus where
  | Unpaid
  | Underspent
  | OnBudget
  | Overspent
deriving DecidableEq, Repr

/-- `CategoryBudgetSummary`. -/
structure CategoryBudgetSummary where
  entry_id : Nat
  category : CategorySummary
  budgeted : Money
  paid : Money
  remaining : Money
  status : BudgetStatus
deriving DecidableEq, Repr

/-- `MonthSummary`. -/
structure MonthSummary where
  month : BudgetMonth
  total_budgeted : Money
  total_paid : Money
  remaining : Money
  categories : List CategoryBudgetSummary
deriving DecidableEq, Repr

/-- `derive_status` (`summary_service.rs` lines 38-54): the in-order
decision ladder over `(budgeted, paid)`. -/
def derive_status (budgeted paid : Money) : BudgetStatus :=
  let b := budgeted.value
  let p := paid.value
  if b = 0 ∧ p = 0 then .OnBudget
  else if p = 0 ∧ b > 0 then .Unpaid
  else if p > 0 ∧ p < b then .Underspent
  else if p = b then .OnBudget
  else .Overspent

/-- The repositories `SummaryService` reads from. Every operation the
service performs is a read, so the store is held fixed and the three
repository methods are modelled as pure fallible functions of it. -/
structure SummaryEnv where
  monthFindById : Nat → Except MonthError (Option Month)
  entryListByMonth : Nat → Except EntryError (List BudgetEntryWithCategory)
  sumByEntry : Nat → Except TransactionError Money

/-- The `for entry in entries` loop of `get_month_summary`: builds the
per-category summaries in listing order while accumulating the running
totals. -/
def SummaryService.summaryLoop (env : SummaryEnv) :
    List BudgetEntryWithCategory → Money → Money →
    Except MonthError (List CategoryBudgetSummary × Money × Money)
  | [], total_budgeted, total_paid => .ok ([], total_budgeted, total_paid)
  | entry :: rest, total_budgeted, total_paid =>
    match env.sumByEntry entry.id with
    | .error e => .error (.Repository ("Failed to sum transactions: " ++ e.display))
    | .ok paid =>
      let remaining := entry.budgeted - paid
      let status := derive_status entry.budgeted paid
      match SummaryService.summaryLoop env rest
          (total_budgeted + entry.budgeted) (total_paid + paid) with
      | .error e => .error e
      | .ok (cats, tb, tp) =>
        .ok (⟨entry.id, entry.category, entry.budgeted, paid, remaining, status⟩ :: cats,
             tb, tp)

/-- `SummaryService::get_month_summary` (`summary_service.rs` lines 75-127). -/
def SummaryService.get_month_summary (env : SummaryEnv) (month_id : Nat) :
    Except MonthError MonthSummary :=
  match env.monthFindById month_id with
  | .error e => .error e
  | .ok none => .error .NotFound
  | .ok (some month) =>
    match env.entryListByMonth month_id with
    | .error e => .error (.Repository ("Failed to list entries: " ++ e.display))
    | .ok entries =>
      match SummaryService.summaryLoop env entries (Money.new 0) (Money.new 0) with
      | .error e => .error e
      | .ok (categories, total_budgeted, total_paid) =>
        .ok { month := month.month
              total_budgeted := total_budgeted
              total_paid := total_paid
              remaining := total_budgeted - total_paid
              categories := categories }

/-! ## TransactionService (`services/transaction_service.rs`) -/

/-- `normalize_title`: trim whitespace; `None`, empty, or whitespace-only
become `None`. -/
def normalize_title (title : Option (List Char)) : Option (List Char) :=
  title.bind fun t =>
    let trimmed := rustTrim t
    if trimmed.isEmpty then none else some trimmed

/-- `validate_title_length`: error if the title's length (`str::len`, i.e.
its UTF-8 byte count) exceeds `MAX_TITLE_LENGTH`. -/
def validate_title_length (title : Option (List Char)) : Except TransactionError Unit :=
  match title with
  | some t =>
    if utf8Len t > MAX_TITLE_LENGTH then
      .error (.TitleTooLong (utf8Len t) MAX_TITLE_LENGTH)
    else .ok ()
  | none => .ok ()

/-- A repository round-trip made by `TransactionService::create`, recorded
in order so that "fails before any store call" is expressible. -/
inductive TxRepoCall where
  | entryFindById (id : Nat)
  | transactionCreate (t : NewTransaction)
deriving DecidableEq, Repr

/-- The two repositories `TransactionService::create` touches, as fallible
functions (the service itself performs no writes to them besides the final
insert, whose result the environment supplies). -/
structure TxEnv where
  entryFindById : Nat → Except EntryError (Option BudgetEntry)
  transactionCreate : NewTransaction → Except TransactionError Transaction

/-- `TransactionService::create` (`transaction_service.rs` lines 96-129),
paired with the list of repository calls it made. -/
def TransactionService.create (env : TxEnv) (entry_id : Nat) (amount : Money)
    (date : TransactionDate) (title : Option (List Char)) :
    Except TransactionError Transaction × List TxRepoCall :=
  if amount.value < 0 then
    (.error (.InvalidAmount amount.value), [])
  else
    let normalized_title := normalize_title title
    match validate_title_length normalized_title with
    | .error e => (.error e, [])
    | .ok _ =>
      match env.entryFindById entry_id with
      | .error e => (.error (.Repository e.display), [.entryFindById entry_id])
      | .ok none => (.error .EntryNotFound, [.entryFindById entry_id])
      | .ok (some _) =>
        let new_transaction : NewTransaction := ⟨entry_id, amount, date, normalized_title⟩
        match env.transactionCreate new_transaction with
        | .error e =>
          (.error e, [.entryFindById entry_id, .transactionCreate new_transaction])
        | .ok tx =>
          (.ok tx, [.entryFindById entry_id, .transactionCreate new_transaction])

/-! ## An in-memory store mirroring the SQLite repositories
(`src/backend/crates/db/src/repos`). Rows are plain records; `nextId`
supplies the fresh identifiers the source draws as ULIDs. -/

/-- A `categories` table row (the raw `name` text as stored). -/
structure DbCategory where
  id : Nat
  name : List Char
deriving DecidableEq, Repr

/-- The relational store backing the repositories. -/
structure Db where
  categories : List DbCategory
  months : List Month
  entries : List BudgetEntry
  txs : List Transaction
  nextId : Nat
deriving DecidableEq, Repr

/-- `SELECT COUNT(*) FROM transactions WHERE entry_id = ?`
(`SqliteBudgetEntryRepository::transaction_count`). -/
def Db.transaction_count (db : Db) (entry_id : Nat) : Int :=
  ((db.txs.filter fun t => t.entry_id == entry_id).length : Int)

/-- `SELECT * FROM budget_entries WHERE id = ?`. -/
def Db.entryFindById (db : Db) (id : Nat) : Option BudgetEntry :=
  db.entries.find? fun e => e.id == id

/-- `DELETE FROM budget_entries WHERE id = ?`; `NotFound` when no row was
affected (`SqliteBudgetEntryRepository::delete`). -/
def Db.entryDelete (db : Db) (id : Nat) : Except EntryError Unit × Db :=
  if (db.entries.filter fun e => e.id == id).isEmpty then
    (.error .NotFound, db)
  else
    (.ok (), { db with entries := db.entries.filter fun e => e.id != id })

/-! ## EntryService (`services/entry_service.rs`) -/

/-- `EntryService::delete` (`entry_service.rs` lines 82-90) over the
in-memory store: query the transaction count first, refuse with
`HasTransactions` when it is positive, delete otherwise. (The
`transaction_count` round-trip cannot fail in the in-memory store, so the
source's `?` on it has no error branch here.) -/
def EntryService.delete (db : Db) (id : Nat) : Except EntryError Unit × Db :=
  let count := db.transaction_count id
  if count > 0 then
    (.error (.HasTransactions count), db)
  else
    db.entryDelete id

/-! ## MonthService (`services/month_service.rs`), over an abstract
stateful repository pair: each operation takes the store and returns its
result together with the store it leaves behind. -/

/-- The `MonthRepository` and `BudgetEntryRepository` methods
`MonthService::create` uses. -/
structure MonthOps (σ : Type) where
  monthCreate : σ → NewMonth → Except MonthError Month × σ
  monthFindById : σ → Nat → Except MonthError (Option Month) × σ
  monthFindLatest : σ → Except MonthError (Option Month) × σ
  entryListByMonth : σ → Nat → Except EntryError (List BudgetEntryWithCategory) × σ
  entryCreate : σ → NewBudgetEntry → Except EntryError BudgetEntryWithCategory × σ

/-- The `for entry in entries` copy loop of `MonthService::create`: each
failure aborts with a repository error wrapping the cause. -/
def MonthService.copyEntries (ops : MonthOps σ) (createdId : Nat) :
    List BudgetEntryWithCategory → σ → Except MonthError Unit × σ
  | [], s => (.ok (), s)
  | entry :: rest, s =>
    let new_entry : NewBudgetEntry :=
      ⟨createdId, entry.category.id, entry.budgeted, entry.due_day⟩
    match ops.entryCreate s new_entry with
    | (.error e, s1) =>
      (.error (.Repository ("Failed to copy entry: " ++ e.display)), s1)
    | (.ok _, s1) => MonthService.copyEntries ops createdId rest s1

/-- The `if let Some(source_id) = source_month_id` tail of
`MonthService::create`: list the source month's entries and copy each into
the created month. -/
def MonthService.copyFromSource (ops : MonthOps σ) (created : Month)
    (source_month_id : Option Nat) (s : σ) : Except MonthError Month × σ :=
  match source_month_id with
  | none => (.ok created, s)
  | some source_id =>
    match ops.entryListByMonth s source_id with
    | (.error e, s1) =>
      (.error (.Repository ("Failed to list entries for copy: " ++ e.display)), s1)
    | (.ok entries, s1) =>
      match MonthService.copyEntries ops created.id entries s1 with
      | (.error e, s2) => (.error e, s2)
      | (.ok _, s2) => (.ok created, s2)

/-- `MonthService::create` (`month_service.rs` lines 36-87): insert the
month; unless `empty`, resolve a source month — the supplied `copy_from`
(which must exist), or else `find_latest()` filtered to exclude the month
just created — and copy its entries. -/
def MonthService.create (ops : MonthOps σ) (s : σ) (month : BudgetMonth)
    (copy_from : Option Nat) (empty : Bool) : Except MonthError Month × σ :=
  match ops.monthCreate s ⟨month⟩ with
  | (.error e, s1) => (.error e, s1)
  | (.ok created, s1) =>
    if empty then (.ok created, s1)
    else
      match copy_from with
      | some source_id =>
        match ops.monthFindById s1 source_id with
        | (.error e, s2) => (.error e, s2)
        | (.ok none, s2) => (.error .NotFound, s2)
        | (.ok (some _), s2) =>
          MonthService.copyFromSource ops created (some source_id) s2
      | none =>
        match ops.monthFindLatest s1 with
        | (.error e, s2) => (.error e, s2)
        | (.ok latest, s2) =>
          let source_month_id :=
            (latest.filter fun m => m.id != created.id).map fun m => m.id
          MonthService.copyFromSource ops created source_month_id s2

/-! ## In-memory month/entry repository operations mirroring
`SqliteMonthRepository` and `SqliteBudgetEntryRepository`. -/

/-- The strict order of `impl Ord for BudgetMonth`: by year, then month
(`cmp` via `then_with`; also the `ORDER BY month` order of the store,
since the persisted `"YYYY-MM"` strings sort the same way). -/
def budgetMonthLt (a b : BudgetMonth) : Bool :=
  a.year < b.year || (a.year == b.year && a.month < b.month)

/-- `SELECT * FROM months ORDER BY month DESC LIMIT 1`
(`SqliteMonthRepository::find_latest`). -/
def Db.monthFindLatest (db : Db) : Option Month :=
  db.months.foldl
    (fun best m =>
      match best with
      | none => some m
      | some b => if budgetMonthLt b.month m.month then some m else some b)
    none

/-- `SELECT * FROM months WHERE id = ?`. -/
def Db.monthFindById (db : Db) (id : Nat) : Option Month :=
  db.months.find? fun m => m.id == id

/-- `SqliteMonthRepository::create`: insert with a fresh id; the `UNIQUE`
constraint on `month` maps to `AlreadyExists` carrying the rendered month. -/
def Db.monthCreate (db : Db) (nm : NewMonth) : Except MonthError Month × Db :=
  if db.months.any fun m => m.month == nm.month then
    (.error (.AlreadyExists (String.mk nm.month.render)), db)
  else
    let created : Month := ⟨db.nextId, nm.month⟩
    (.ok created,
     { db with months := db.months ++ [created], nextId := db.nextId + 1 })

/-- The join row of `list_by_month` / `fetch_entry_with_category`: an entry
paired with its `categories` row (`INNER JOIN`, so entries without a
category row are dropped). -/
def Db.entryRows (db : Db) (month_id : Nat) : List (BudgetEntry × DbCategory) :=
  (db.entries.filter fun e => e.month_id == month_id).filterMap fun e =>
    (db.categories.find? fun c => c.id == e.category_id).map fun c => (e, c)

/-- SQLite text (UTF-8 byte) ordering on the stored category names,
restricted to the character ranges this development uses. -/
def charListLe : List Char → List Char → Bool
  | [], _ => true
  | _ :: _, [] => false
  | a :: xs, b :: ys =>
    if a.toNat < b.toNat then true
    else if b.toNat < a.toNat then false
    else charListLe xs ys

/-- The `ORDER BY e.due_day ASC NULLS LAST, c.name ASC` key comparison. -/
def entryRowLe (a b : BudgetEntry × DbCategory) : Bool :=
  match a.1.due_day, b.1.due_day with
  | none, none => charListLe a.2.name b.2.name
  | none, some _ => false
  | some _, none => true
  | some da, some dbb =>
    if da.value < dbb.value then true
    else if dbb.value < da.value then false
    else charListLe a.2.name b.2.name

/-- Insertion step of a stable sort by `le`. -/
def insertSorted (le : α → α → Bool) (x : α) : List α → List α
  | [] => [x]
  | y :: ys => if le x y then x :: y :: ys else y :: insertSorted le x ys

/-- Stable insertion sort by `le`. -/
def sortByLe (le : α → α → Bool) (l : List α) : List α :=
  l.foldr (insertSorted le) []

/-- `map_row_to_entry_with_category`: the stored name is re-validated via
`CategoryName::new`; an invalid stored name surfaces as a repository
error. -/
def Db.rowToEntryWithCategory (row : BudgetEntry × DbCategory) :
    Except EntryError BudgetEntryWithCategory :=
  match CategoryName.new row.2.name with
  | .error e =>
    .error (.Repository ("invalid category name: " ++ e.display))
  | .ok name =>
    .ok ⟨row.1.id, ⟨row.1.category_id, name⟩, row.1.budgeted, row.1.due_day⟩

/-- `SqliteBudgetEntryRepository::list_by_month`: the joined rows for the
month, ordered by `due_day ASC NULLS LAST, c.name ASC`. -/
def Db.entryListByMonth (db : Db) (month_id : Nat) :
    Except EntryError (List BudgetEntryWithCategory) :=
  (sortByLe entryRowLe (db.entryRows month_id)).mapM Db.rowToEntryWithCategory

/-- `SqliteBudgetEntryRepository::create`: the `(month_id, category_id)`
`UNIQUE` constraint maps to `CategoryAlreadyInMonth`; a missing foreign key
maps to `MonthNotFound`/`CategoryNotFound`; otherwise the row is inserted
with a fresh id and read back joined with its category. -/
def Db.entryCreate (db : Db) (entry : NewBudgetEntry) :
    Except EntryError BudgetEntryWithCategory × Db :=
  if db.entries.any fun e =>
      e.month_id == entry.month_id && e.category_id == entry.category_id then
    (.error (.CategoryAlreadyInMonth (toString entry.category_id)
      (toString entry.month_id)), db)
  else if (db.months.find? fun m => m.id == entry.month_id).isNone then
    (.error .MonthNotFound, db)
  else if (db.categories.find? fun c => c.id == entry.category_id).isNone then
    (.error .CategoryNotFound, db)
  else
    let row : BudgetEntry :=
      ⟨db.nextId, entry.month_id, entry.category_id, entry.budgeted, entry.due_day⟩
    let db1 : Db := { db with entries := db.entries ++ [row], nextId := db.nextId + 1 }
    match db1.categories.find? fun c => c.id == row.category_id with
    | none => (.error .NotFound, db1)
    | some c => (Db.rowToEntryWithCategory (row, c), db1)

/-- The `MonthOps` instantiation at the in-memory store, tying
`MonthService::create` to the SQLite repository behaviour. -/
def dbMonthOps : MonthOps Db :=
  { monthCreate := fun db nm => db.monthCreate nm
    monthFindById := fun db id => (.ok (db.monthFindById id), db)
    monthFindLatest := fun db => (.ok db.monthFindLatest, db)
    entryListByMonth := fun db mid => (db.entryListByMonth mid, db)
    entryCreate := fun db e => db.entryCreate e }

/-! ## Sample data shared by witnesses -/

/-- A budget entry row used by the transaction-service witnesses. -/
def sampleEntry : BudgetEntry := ⟨1, 5, 10, ⟨10000⟩, none⟩

/-- A transaction-service environment whose entry 1 exists and whose
insert echoes the new transaction under id 99. -/
def sampleTxEnv : TxEnv :=
  { entryFindById := fun id => if id == 1 then .ok (some sampleEntry) else .ok none
    transactionCreate := fun nt => .ok ⟨99, nt.entry_id, nt.amount, nt.date, nt.title⟩ }

/-- A store whose entry 2 (in month 5) has exactly one transaction. -/
def c4Db : Db :=
  { categories := [⟨10, "food".toList⟩]
    months := [⟨5, ⟨2026, 4⟩⟩]
    entries := [⟨2, 5, 10, ⟨10000⟩, none⟩]
    txs := [⟨3, 2, ⟨3000⟩, ⟨"2026-04-10".toList⟩, none⟩]
    nextId := 50 }

/-- The same store with the transaction removed. -/
def c4DbNoTx : Db := { c4Db with txs := [] }

/-- Category summaries used by the C3 witness. -/
def c3Food : CategorySummary := ⟨10, ⟨"food".toList⟩⟩

/-- Second category of the C3 witness. -/
def c3Rent : CategorySummary := ⟨11, ⟨"rent".toList⟩⟩

/-- First listed entry of the C3 witness (due day 15). -/
def c3E1 : BudgetEntryWithCategory := ⟨21, c3Food, ⟨10000⟩, some ⟨15⟩⟩

/-- Second listed entry of the C3 witness (no due day). -/
def c3E2 : BudgetEntryWithCategory := ⟨22, c3Rent, ⟨5000⟩, none⟩

/-- C3 witness environment: month 5 with two entries; entry 21 has 500 in
transactions, entry 22 none. -/
def c3Env : SummaryEnv :=
  { monthFindById := fun id => if id == 5 then .ok (some ⟨5, ⟨2026, 1⟩⟩) else .ok none
    entryListByMonth := fun id => if id == 5 then .ok [c3E1, c3E2] else .ok []
    sumByEntry := fun id => if id == 21 then .ok ⟨500⟩ else .ok ⟨0⟩ }

/-- The month created by the C6 witness environment. -/
def c6Created : Month := ⟨8, ⟨2026, 3⟩⟩

/-- The single source entry the C6 witness tries to copy. -/
def c6Entry : BudgetEntryWithCategory := ⟨21, ⟨10, ⟨"food".toList⟩⟩, ⟨10000⟩, some ⟨15⟩⟩

/-- C6 witness environment over a call-counter store: every operation
succeeds except the entry insert, which fails with a repository error. -/
def c6Ops : MonthOps Nat :=
  { monthCreate := fun s _ => (.ok c6Created, s + 1)
    monthFindById := fun s _ => (.ok (some ⟨7, ⟨2026, 2⟩⟩), s + 1)
    monthFindLatest := fun s => (.ok none, s + 1)
    entryListByMonth := fun s _ => (.ok [c6Entry], s + 1)
    entryCreate := fun s _ => (.error (.Repository "db is down"), s + 1) }

/-- The store for the C1 scenario: one existing month 2026-01 (id 1) with
one budget entry (category food, budgeted 10000, due day 15). -/
def c1Db : Db :=
  { categories := [⟨10, "food".toList⟩]
    months := [⟨1, ⟨2026, 1⟩⟩]
    entries := [⟨2, 1, 10, ⟨10000⟩, some ⟨15⟩⟩]
    txs := []
    nextId := 100 }

/-- The byte length `validate_title_length` checks, lifted to the optional
title: zero for `None`. -/
def utf8LenOpt : Option (List Char) → Nat
  | none => 0
  | some t => utf8Len t

/-- The 50-character, 75-byte title of the C5 counterexample. -/
def c5Title : List Char := List.replicate 25 'é' ++ List.replicate 25 'a'

/-- The literal `[A-Za-z0-9_-]` character class the claim states for
category-name segments. -/
def asciiNameCharOk (c : Char) : Bool :=
  ('A' ≤ c && c ≤ 'Z') || ('a' ≤ c && c ≤ 'z') || ('0' ≤ c && c ≤ '9') ||
  c == '-' || c == '_'

/-- Modelled from the spec's word "numeric" in the C8 failure condition: a
segment in plain decimal-digit form. -/
def numericSegment (seg : List Char) : Bool :=
  !seg.isEmpty && seg.all Char.isDigit

/-- One `(year, month)` instance of the C8 round-trip property as a
decidable check: construction succeeds and parsing the rendered form gives
back the same value. -/
def roundTripCheck (y : Int) (m : Nat) : Bool :=
  decide (BudgetMonth.new y m = .ok ⟨y, m⟩) &&
  decide (BudgetMonth.fromChars (BudgetMonth.render ⟨y, m⟩) = .ok ⟨y, m⟩)

/-- Modelled from the spec (amended): the validity condition for a category
name as one flat predicate — non-empty, no leading or trailing `/`, no
`//`, and every `/`-separated segment non-empty and made only of (Unicode)
alphanumeric characters, `-`, or `_`. -/
def specCategoryNameValid (s : List Char) : Bool :=
  !s.isEmpty && !(s.head? == some '/') && !(s.getLast? == some '/') &&
  !containsDoubleSlash s &&
  ((splitOn '/' s).all fun seg => !seg.isEmpty && seg.all categoryCharOk)

/-! ## Claim theorems -/

/-- Claim C2: for every pair of `Money` values, `derive_status` returns the
status of the spec's decision table — the five conditions are pairwise
exclusive, so stating each as an implication captures the in-order
evaluation — and the six example pairs map as listed. -/
theorem derive_status_matches_spec_table :
    (∀ budgeted paid : Money,
      ((budgeted.value = 0 ∧ paid.value = 0) →
        derive_status budgeted paid = .OnBudget) ∧
      ((paid.value = 0 ∧ budgeted.value > 0) →
        derive_status budgeted paid = .Unpaid) ∧
      ((0 < paid.value ∧ paid.value < budgeted.value) →
        derive_status budgeted paid = .Underspent) ∧
      ((paid.value = budgeted.value ∧ budgeted.value > 0) →
        derive_status budgeted paid = .OnBudget) ∧
      (paid.value > budgeted.value →
        derive_status budgeted paid = .Overspent)) ∧
    derive_status ⟨1000⟩ ⟨0⟩ = .Unpaid ∧
    derive_status ⟨1000⟩ ⟨500⟩ = .Underspent ∧
    derive_status ⟨1000⟩ ⟨1000⟩ = .OnBudget ∧
    derive_status ⟨1000⟩ ⟨1500⟩ = .Overspent ∧
    derive_status ⟨0⟩ ⟨0⟩ = .OnBudget ∧
    derive_status ⟨0⟩ ⟨500⟩ = .Overspent := by
  refine ⟨?_, by decide, by decide, by decide, by decide, by decide, by decide⟩
  intro budgeted paid
  refine ⟨?_, ?_, ?_, ?_, ?_⟩ <;> intro h <;>
    simp only [derive_status] <;>
    split_ifs <;> first | rfl | (exfalso; omega)

/-- Witness for C2: the underspent row applied at `(1000, 400)`. -/
theorem derive_status_matches_spec_table_witness :
    derive_status ⟨1000⟩ ⟨400⟩ = .Underspent :=
  (derive_status_matches_spec_table.1 ⟨1000⟩ ⟨400⟩).2.2.1 (by decide)

/-- Claim C10: `derive_status` is total (its Lean embedding is a total
function; the first conjunct states every pair yields a status), and for
positive budget with negative paid it falls through every earlier guard —
despite `paid < budgeted` — and the final catch-all branch yields
`Overspent`. The `Int` quantification subsumes the `i64` range. -/
theorem derive_status_negative_paid_overspent :
    (∀ budgeted paid : Money, ∃ st : BudgetStatus, derive_status budgeted paid = st) ∧
    (∀ budgeted paid : Money, 0 < budgeted.value → paid.value < 0 →
      paid.value < budgeted.value ∧
      ¬(budgeted.value = 0 ∧ paid.value = 0) ∧
      ¬(paid.value = 0 ∧ budgeted.value > 0) ∧
      ¬(paid.value > 0 ∧ paid.value < budgeted.value) ∧
      paid.value ≠ budgeted.value ∧
      derive_status budgeted paid = .Overspent) := by
  constructor
  · intro budgeted paid
    exact ⟨derive_status budgeted paid, rfl⟩
  · intro budgeted paid hb hp
    refine ⟨by omega, by omega, by omega, by omega, by omega, ?_⟩
    simp only [derive_status]
    split_ifs <;> first | rfl | (exfalso; omega)

/-- Witness for C10: `(budgeted, paid) = (1000, -300)` is `Overspent`. -/
theorem derive_status_negative_paid_overspent_witness :
    derive_status ⟨1000⟩ ⟨-300⟩ = .Overspent :=
  (derive_status_negative_paid_overspent.2 ⟨1000⟩ ⟨-300⟩ (by decide)
    (by decide)).2.2.2.2.2

/-- Claim C9: `TransactionService::create` with a negative amount fails
with `InvalidAmount` carrying the value, with an empty repository call log
— neither the entry lookup nor the insert happens. -/
theorem transaction_create_invalid_amount (env : TxEnv) (entry_id : Nat)
    (amount : Money) (date : TransactionDate) (title : Option (List Char))
    (h : amount.value < 0) :
    TransactionService.create env entry_id amount date title =
      (.error (.InvalidAmount amount.value), []) := by
  unfold TransactionService.create
  rw [if_pos h]

/-- Witness for C9: `amount = -1` at the sample environment. -/
theorem transaction_create_invalid_amount_witness :
    TransactionService.create sampleTxEnv 1 ⟨-1⟩ ⟨"2026-01-10".toList⟩ none =
      (.error (.InvalidAmount (-1)), []) :=
  transaction_create_invalid_amount sampleTxEnv 1 ⟨-1⟩ ⟨"2026-01-10".toList⟩ none
    (by decide)

/-- Claim C4: `EntryService::delete` queries the transaction count first;
a positive count fails with `HasTransactions` carrying it and leaves the
store untouched (the entry stays queryable); a zero count delegates to the
repository delete. -/
theorem entry_delete_transaction_guard (db : Db) (id : Nat) :
    (0 < db.transaction_count id →
      EntryService.delete db id =
        (.error (.HasTransactions (db.transaction_count id)), db) ∧
      (EntryService.delete db id).2.entryFindById id = db.entryFindById id) ∧
    (db.transaction_count id = 0 →
      EntryService.delete db id = db.entryDelete id) := by
  constructor
  · intro h
    unfold EntryService.delete
    rw [if_pos h]
    exact ⟨rfl, rfl⟩
  · intro h
    unfold EntryService.delete
    rw [if_neg (by omega)]

/-- Witness for C4: with one referencing transaction the delete is refused
and the store is unchanged; with none the row is deleted. -/
theorem entry_delete_transaction_guard_witness :
    (EntryService.delete c4Db 2 = (.error (.HasTransactions 1), c4Db) ∧
      (EntryService.delete c4Db 2).2.entryFindById 2 = c4Db.entryFindById 2) ∧
    EntryService.delete c4DbNoTx 2 = c4DbNoTx.entryDelete 2 :=
  ⟨(entry_delete_transaction_guard c4Db 2).1 (by decide),
   (entry_delete_transaction_guard c4DbNoTx 2).2 (by decide)⟩

/-- `(a + b).value` unfolds to integer addition. -/
theorem Money.add_value (a b : Money) : (a + b).value = a.value + b.value := rfl

/-- `(a - b).value` unfolds to integer subtraction. -/
theorem Money.sub_value (a b : Money) : (a - b).value = a.value - b.value := rfl

/-- The summary loop, when the month lookup of every listed entry's
transaction sum succeeds, produces the per-entry summaries in listing
order and adds all budgeted/paid amounts onto the running totals. -/
theorem summaryLoop_ok (env : SummaryEnv) (psum : BudgetEntryWithCategory → Money)
    (es : List BudgetEntryWithCategory) :
    ∀ tb tp : Money,
      (∀ e ∈ es, env.sumByEntry e.id = .ok (psum e)) →
      SummaryService.summaryLoop env es tb tp =
        .ok (es.map (fun e =>
               ⟨e.id, e.category, e.budgeted, psum e, e.budgeted - psum e,
                derive_status e.budgeted (psum e)⟩),
             ⟨tb.value + (es.map fun e => e.budgeted.value).sum⟩,
             ⟨tp.value + (es.map fun e => (psum e).value).sum⟩) := by
  induction es with
  | nil =>
    intro tb tp _
    simp [SummaryService.summaryLoop]
  | cons e rest ih =>
    intro tb tp hs
    have he : env.sumByEntry e.id = .ok (psum e) := hs e (by simp)
    have hrest : ∀ x ∈ rest, env.sumByEntry x.id = .ok (psum x) := by
      intro x hx
      exact hs x (by simp [hx])
    simp only [SummaryService.summaryLoop, he]
    rw [ih (tb + e.budgeted) (tp + psum e) hrest]
    simp [Money.add_value, add_assoc]

/-- Claim C3: when the month resolves and the entry listing succeeds,
`get_month_summary` returns, for each listed entry in order, its
transaction sum as `paid`, `remaining = budgeted - paid`, and overall
totals that are the signed sums of the per-entry values with
`remaining = total_budgeted - total_paid`; the categories preserve the
listing order. -/
theorem get_month_summary_correct (env : SummaryEnv) (month_id : Nat) (mo : Month)
    (es : List BudgetEntryWithCategory) (psum : BudgetEntryWithCategory → Money)
    (hm : env.monthFindById month_id = .ok (some mo))
    (hl : env.entryListByMonth month_id = .ok es)
    (hs : ∀ e ∈ es, env.sumByEntry e.id = .ok (psum e)) :
    SummaryService.get_month_summary env month_id =
      .ok { month := mo.month
            total_budgeted := ⟨(es.map fun e => e.budgeted.value).sum⟩
            total_paid := ⟨(es.map fun e => (psum e).value).sum⟩
            remaining := ⟨(es.map fun e => e.budgeted.value).sum -
                          (es.map fun e => (psum e).value).sum⟩
            categories := es.map fun e =>
              ⟨e.id, e.category, e.budgeted, psum e, e.budgeted - psum e,
               derive_status e.budgeted (psum e)⟩ } := by
  simp only [SummaryService.get_month_summary, hm, hl,
    summaryLoop_ok env psum es (Money.new 0) (Money.new 0) hs]
  simp [Money.new, Money.sub_value]
  rfl

/-- Witness for C3: the concrete two-entry month sums to
`total_budgeted = 15000`, `total_paid = 500`, `remaining = 14500`. -/
theorem get_month_summary_correct_witness :
    SummaryService.get_month_summary c3Env 5 =
      .ok { month := ⟨2026, 1⟩
            total_budgeted := ⟨15000⟩
            total_paid := ⟨500⟩
            remaining := ⟨14500⟩
            categories :=
              [⟨21, c3Food, ⟨10000⟩, ⟨500⟩, ⟨9500⟩, .Underspent⟩,
               ⟨22, c3Rent, ⟨5000⟩, ⟨0⟩, ⟨5000⟩, .Unpaid⟩] } :=
  (get_month_summary_correct c3Env 5 ⟨5, ⟨2026, 1⟩⟩ [c3E1, c3E2]
      (fun e => if e.id == 21 then ⟨500⟩ else ⟨0⟩) rfl rfl (by decide)).trans
    (by decide)

/-- A successful copy of a prefix of the entry list steps the loop to the
prefix's final store, after which the loop continues on the remainder. -/
theorem copyEntries_append (ops : MonthOps σ) (cid : Nat)
    (pre rest : List BudgetEntryWithCategory) :
    ∀ s s1 : σ, MonthService.copyEntries ops cid pre s = (.ok (), s1) →
      MonthService.copyEntries ops cid (pre ++ rest) s =
        MonthService.copyEntries ops cid rest s1 := by
  induction pre with
  | nil =>
    intro s s1 h
    simp only [MonthService.copyEntries] at h
    cases h
    simp
  | cons e pr ih =>
    intro s s1 h
    simp only [MonthService.copyEntries, List.cons_append] at h ⊢
    rcases hec : ops.entryCreate s ⟨cid, e.category.id, e.budgeted, e.due_day⟩ with ⟨r, s2⟩
    rw [hec] at h
    cases r with
    | error err => simp at h
    | ok v => exact ih s2 s1 h

/-- Claim C6: when `MonthService::create` reaches entry copying (here via a
resolved `copy_from` source) and one entry's copy fails, the whole call
aborts with a repository error wrapping the cause, and the final store is
exactly the one the failing insert left behind — the created month row and
the entries copied before the failure are not rolled back by the service. -/
theorem month_create_copy_failure_no_rollback (ops : MonthOps σ)
    (s0 s1 s2 s3 s4 s5 : σ) (month : BudgetMonth) (source_id : Nat)
    (created srcMonth : Month) (pre : List BudgetEntryWithCategory)
    (bad : BudgetEntryWithCategory) (rest : List BudgetEntryWithCategory)
    (err : EntryError)
    (hc : ops.monthCreate s0 ⟨month⟩ = (.ok created, s1))
    (hf : ops.monthFindById s1 source_id = (.ok (some srcMonth), s2))
    (hl : ops.entryListByMonth s2 source_id = (.ok (pre ++ bad :: rest), s3))
    (hpre : MonthService.copyEntries ops created.id pre s3 = (.ok (), s4))
    (hbad : ops.entryCreate s4 ⟨created.id, bad.category.id, bad.budgeted, bad.due_day⟩ =
      (.error err, s5)) :
    MonthService.create ops s0 month (some source_id) false =
      (.error (.Repository ("Failed to copy entry: " ++ err.display)), s5) := by
  simp only [MonthService.create, MonthService.copyFromSource, hc,
    Bool.false_eq_true, if_false, hf, hl,
    copyEntries_append ops created.id pre (bad :: rest) s3 s4 hpre,
    MonthService.copyEntries, hbad]

/-- Witness for C6: the copy failure aborts the creation with the wrapped
repository error and leaves the store at the state after the failing
insert. -/
theorem month_create_copy_failure_no_rollback_witness :
    MonthService.create c6Ops 0 ⟨2026, 3⟩ (some 7) false =
      (.error (.Repository "Failed to copy entry: Repository error: db is down"), 4) :=
  month_create_copy_failure_no_rollback c6Ops 0 1 2 3 3 4 ⟨2026, 3⟩ 7 c6Created
    ⟨7, ⟨2026, 2⟩⟩ [] c6Entry [] (.Repository "db is down") rfl rfl rfl rfl rfl

/-- Claim C1 (code bug): creating 2026-02 with `empty = false` and no
`copy_from` succeeds but copies nothing. The service calls `find_latest()`
— which now returns the month it just created, 2026-02 being the latest —
and then filters that month out by id, so the source resolves to `None`
and copying is skipped, although the previous latest month (id 1) has an
entry to copy. The declared `MonthRepository::find_latest_excluding` port,
which matches the spec, is never called. -/
theorem month_create_autocopy_skipped_code_bug :
    (c1Db.entries.filter fun e => e.month_id == 1).length = 1 ∧
    MonthService.create dbMonthOps c1Db ⟨2026, 2⟩ none false =
      (.ok ⟨100, ⟨2026, 2⟩⟩,
       { c1Db with months := c1Db.months ++ [⟨100, ⟨2026, 2⟩⟩], nextId := 101 }) ∧
    ((MonthService.create dbMonthOps c1Db ⟨2026, 2⟩ none false).2.entries.filter
        fun e => e.month_id == 100) = [] := by
  exact ⟨rfl, rfl, rfl⟩

/-- Counterexample to C5 as stated: this normalized title has exactly 50
characters, yet `TransactionService::create` rejects it — `str::len`
counts UTF-8 bytes, and the 25 two-byte characters make 75 > 50 — with
the byte count, not the character count, recorded in the error. -/
theorem transaction_create_title_50_chars_rejected :
    c5Title.length = 50 ∧
    normalize_title (some c5Title) = some c5Title ∧
    TransactionService.create sampleTxEnv 1 ⟨100⟩ ⟨"2026-01-10".toList⟩ (some c5Title) =
      (.error (.TitleTooLong 75 50), []) := by
  refine ⟨by decide, by decide, by decide⟩

/-- Claim C5 (amended): `TransactionService::create` normalizes the title
first — `None`, empty, or whitespace-only becomes no title, otherwise the
surrounding whitespace is trimmed — and only then length-validates it on
its UTF-8 byte length: at most 50 bytes is accepted (the call proceeds to
the entry lookup and insert), more than 50 bytes is rejected with
`TitleTooLong` recording that byte length and the maximum 50, before any
repository call. -/
theorem transaction_create_title_normalization (env : TxEnv) (be : BudgetEntry)
    (tx : Transaction) (entry_id : Nat) (amount : Money) (date : TransactionDate)
    (title : Option (List Char))
    (hamt : 0 ≤ amount.value)
    (hfind : env.entryFindById entry_id = .ok (some be))
    (hcr : env.transactionCreate ⟨entry_id, amount, date, normalize_title title⟩ = .ok tx) :
    normalize_title none = none ∧
    (∀ t : List Char, rustTrim t = [] → normalize_title (some t) = none) ∧
    (∀ t : List Char, rustTrim t ≠ [] → normalize_title (some t) = some (rustTrim t)) ∧
    (utf8LenOpt (normalize_title title) ≤ MAX_TITLE_LENGTH →
      TransactionService.create env entry_id amount date title =
        (.ok tx, [.entryFindById entry_id,
                  .transactionCreate ⟨entry_id, amount, date, normalize_title title⟩])) ∧
    (MAX_TITLE_LENGTH < utf8LenOpt (normalize_title title) →
      TransactionService.create env entry_id amount date title =
        (.error (.TitleTooLong (utf8LenOpt (normalize_title title)) MAX_TITLE_LENGTH),
         [])) := by
  have hneg : ¬ amount.value < 0 := by omega
  refine ⟨rfl, ?_, ?_, ?_, ?_⟩
  · intro t ht
    simp [normalize_title, ht]
  · intro t ht
    simp [normalize_title, List.isEmpty_eq_true, ht]
  · intro hle
    have hv : validate_title_length (normalize_title title) = .ok () := by
      unfold validate_title_length
      cases hnt : normalize_title title with
      | none => rfl
      | some t =>
        rw [hnt] at hle
        simp only [utf8LenOpt] at hle
        have hnotgt : ¬ utf8Len t > MAX_TITLE_LENGTH := by omega
        simp [hnotgt]
    simp only [TransactionService.create, if_neg hneg, hv, hfind, hcr]
  · intro hgt
    cases hnt : normalize_title title with
    | none =>
      rw [hnt] at hgt
      simp [utf8LenOpt, MAX_TITLE_LENGTH] at hgt
    | some t =>
      rw [hnt] at hgt
      simp only [utf8LenOpt] at hgt
      have hv : validate_title_length (normalize_title title) =
          .error (.TitleTooLong (utf8Len t) MAX_TITLE_LENGTH) := by
        rw [hnt]
        unfold validate_title_length
        have hgt2 : utf8Len t > MAX_TITLE_LENGTH := by omega
        simp [hgt2]
      simp only [utf8LenOpt, TransactionService.create, if_neg hneg, hv]

/-- Witness for C5 (amended): a title that trims to 50 ASCII characters
(50 bytes) is accepted, the stored title being the trimmed form. -/
theorem transaction_create_title_normalization_witness :
    TransactionService.create sampleTxEnv 1 ⟨100⟩ ⟨"2026-01-10".toList⟩
        (some (' ' :: (List.replicate 50 'a' ++ [' ']))) =
      (.ok ⟨99, 1, ⟨100⟩, ⟨"2026-01-10".toList⟩, some (List.replicate 50 'a')⟩,
       [.entryFindById 1,
        .transactionCreate ⟨1, ⟨100⟩, ⟨"2026-01-10".toList⟩,
          some (List.replicate 50 'a')⟩]) :=
  ((transaction_create_title_normalization sampleTxEnv sampleEntry
      ⟨99, 1, ⟨100⟩, ⟨"2026-01-10".toList⟩,
        normalize_title (some (' ' :: (List.replicate 50 'a' ++ [' '])))⟩
      1 ⟨100⟩ ⟨"2026-01-10".toList⟩ (some (' ' :: (List.replicate 50 'a' ++ [' '])))
      (by decide) (by decide) rfl).2.2.2.1 (by decide)).trans (by decide)

/-- The segment loop accepts exactly when every segment is non-empty and
made of allowed characters. -/
theorem firstSegmentError_eq_none_iff (segs : List (List Char)) :
    firstSegmentError segs = none ↔
      (segs.all fun seg => !seg.isEmpty && seg.all categoryCharOk) = true := by
  induction segs with
  | nil => simp [firstSegmentError]
  | cons seg rest ih =>
    by_cases h1 : seg.isEmpty = true
    · simp [firstSegmentError, h1]
    · by_cases h2 : seg.all categoryCharOk = true
      · simp [firstSegmentError, h1, h2, ih]
      · simp [firstSegmentError, h1, h2]

/-- Counterexample to C7 as stated: the one-segment name `"é"` consists of
a character outside `[A-Za-z0-9_-]`, yet `CategoryName::new` accepts it —
the source admits every Unicode alphanumeric character. -/
theorem categoryName_unicode_char_accepted :
    asciiNameCharOk 'é' = false ∧
    exceptOk (CategoryName.new ['é']) = true := by
  exact ⟨by decide, by decide⟩

/-- Claim C7 (amended): `CategoryName::new(s)` succeeds exactly when `s` is
non-empty, has no leading/trailing `/`, no `//`, and every `/`-segment is
non-empty and made only of Unicode-alphanumeric characters, `-`, or `_`
(the claim's `[A-Za-z0-9_-]` relaxed to Unicode alphanumerics, which the
counterexample forces). Stated for strings of code points below `0x100`,
where the embedded `char::is_alphanumeric` is exact. -/
theorem categoryName_new_iff_spec (s : List Char) (_h : ∀ c ∈ s, c.toNat < 256) :
    exceptOk (CategoryName.new s) = specCategoryNameValid s := by
  unfold CategoryName.new specCategoryNameValid
  by_cases h1 : s.isEmpty = true
  · simp [h1, exceptOk]
  · by_cases h2 : (s.head? == some '/') = true
    · simp [h1, h2, exceptOk]
    · by_cases h3 : (s.getLast? == some '/') = true
      · simp [h1, h2, h3, exceptOk]
      · by_cases h4 : containsDoubleSlash s = true
        · simp [h1, h2, h3, h4, exceptOk]
        · cases hfe : firstSegmentError (splitOn '/' s) with
          | some e =>
            have hall : ¬ ((splitOn '/' s).all fun seg =>
                !seg.isEmpty && seg.all categoryCharOk) = true := by
              intro hcontra
              rw [← firstSegmentError_eq_none_iff] at hcontra
              rw [hcontra] at hfe
              cases hfe
            simp [h1, h2, h3, h4, hfe, exceptOk, hall]
          | none =>
            have hall := (firstSegmentError_eq_none_iff (splitOn '/' s)).mp hfe
            simp [h1, h2, h3, h4, hfe, exceptOk, hall]

/-- Witness for C7 (amended): the multi-segment name
`"utils/electricity"` is accepted. -/
theorem categoryName_new_iff_spec_witness :
    exceptOk (CategoryName.new ("utils/electricity".toList)) = true :=
  (categoryName_new_iff_spec ("utils/electricity".toList) (by decide)).trans
    (by decide)

/-- Every `(year, month)` in `[2000,2100] × [1,12]` passes the round-trip
check (kernel-evaluated over all 1212 instances). -/
theorem roundTripCheck_all :
    ((List.range 101).all fun dy =>
      (List.range 12).all fun dm =>
        roundTripCheck (2000 + (dy : Int)) (dm + 1)) = true := by
  decide

/-- Counterexample to C8 as stated: `"2026-+5"` has the non-numeric
segment `"+5"`, yet parsing succeeds with value 2026-05 — Rust integer
parsing accepts a leading `+` sign. -/
theorem budgetMonth_parse_plus_sign_cex :
    numericSegment ['+', '5'] = false ∧
    splitOn '-' ("2026-+5".toList) = ["2026".toList, ['+', '5']] ∧
    BudgetMonth.fromChars ("2026-+5".toList) = .ok ⟨2026, 5⟩ := by
  exact ⟨by decide, by decide, by decide⟩

/-- Claim C8 (amended): for every `(year, month)` in `[2000,2100] × [1,12]`,
`BudgetMonth::new` succeeds, `to_string` yields the zero-padded `YYYY-MM`
form, and parsing it back is the identity; parsing fails for every string
with a segment count other than two, a year segment that fails Rust `i32`
parsing or a month segment that fails Rust `u8` parsing (an optional
leading sign then digits, within range — so a segment such as `"+5"` is
accepted, which is what the counterexample forces over plain "non-numeric"),
and for year/month values outside the bounds. -/
theorem budgetMonth_roundtrip_amended :
    (∀ (y : Int) (m : Nat), 2000 ≤ y → y ≤ 2100 → 1 ≤ m → m ≤ 12 →
      BudgetMonth.new y m = .ok ⟨y, m⟩ ∧
      BudgetMonth.render ⟨y, m⟩ = intPadded 4 y ++ '-' :: natPadded 2 m ∧
      BudgetMonth.fromChars (BudgetMonth.render ⟨y, m⟩) = .ok ⟨y, m⟩) ∧
    (∀ s : List Char,
      ((splitOn '-' s).length ≠ 2 → exceptOk (BudgetMonth.fromChars s) = false) ∧
      (∀ ys ms, splitOn '-' s = [ys, ms] →
        (parseI32 ys = none → exceptOk (BudgetMonth.fromChars s) = false) ∧
        (parseU8 ms = none → exceptOk (BudgetMonth.fromChars s) = false) ∧
        (∀ (yv : Int) (mv : Nat), parseI32 ys = some yv → parseU8 ms = some mv →
          (yv < 2000 ∨ 2100 < yv ∨ mv < 1 ∨ 12 < mv) →
          exceptOk (BudgetMonth.fromChars s) = false))) := by
  constructor
  · intro y m hy1 hy2 hm1 hm2
    have hdy : (y - 2000).toNat < 101 := by omega
    have hdm : m - 1 < 12 := by omega
    have hy : 2000 + ((y - 2000).toNat : Int) = y := by omega
    have hm : m - 1 + 1 = m := by omega
    have h1 := roundTripCheck_all
    rw [List.all_eq_true] at h1
    have h2 := h1 ((y - 2000).toNat) (List.mem_range.mpr hdy)
    rw [List.all_eq_true] at h2
    have h3 := h2 (m - 1) (List.mem_range.mpr hdm)
    rw [hy, hm] at h3
    unfold roundTripCheck at h3
    rw [Bool.and_eq_true] at h3
    exact ⟨of_decide_eq_true h3.1, rfl, of_decide_eq_true h3.2⟩
  · intro s
    constructor
    · intro hlen
      unfold BudgetMonth.fromChars
      cases hsp : splitOn '-' s with
      | nil => rfl
      | cons a t =>
        cases t with
        | nil => rfl
        | cons b t2 =>
          cases t2 with
          | nil =>
            exfalso
            apply hlen
            rw [hsp]
            rfl
          | cons c t3 => rfl
    · intro ys ms hsp
      refine ⟨?_, ?_, ?_⟩
      · intro hpy
        simp only [BudgetMonth.fromChars, hsp, hpy]
        rfl
      · intro hpm
        cases hpy : parseI32 ys with
        | none =>
          simp only [BudgetMonth.fromChars, hsp, hpy]
          rfl
        | some yv =>
          simp only [BudgetMonth.fromChars, hsp, hpy, hpm]
          rfl
      · intro yv mv hpy hpm hbad
        simp only [BudgetMonth.fromChars, hsp, hpy, hpm]
        unfold BudgetMonth.new
        split_ifs <;> first | rfl | (exfalso; omega)

/-- Witness for C8 (amended): `(2026, 2)` renders as `"2026-02"` and
parses back; `"2024"` (one segment) fails to parse. -/
theorem budgetMonth_roundtrip_amended_witness :
    BudgetMonth.fromChars (BudgetMonth.render ⟨2026, 2⟩) = .ok ⟨2026, 2⟩ ∧
    exceptOk (BudgetMonth.fromChars ("2024".toList)) = false :=
  ⟨(budgetMonth_roundtrip_amended.1 2026 2 (by decide) (by decide) (by decide)
      (by decide)).2.2,
   (budgetMonth_roundtrip_amended.2 ("2024".toList)).1 (by decide)⟩

end Otter
